import Mathlib

/-!
Shallow embedding of `pkg/clusterconfig/clusterconfig.go` from the
cluster-image-registry-operator repository.

The Go module resolves storage-backend configuration for the image registry:
it reads the installer's `cluster-config-v1` ConfigMap, branches on the cloud
platform, and fetches S3 credentials either from a user-defined secret or,
as a fallback, from the installer-provisioned `installer-cloud-credentials`
secret, with a bounded poll (immediate check, then 1-second interval up to a
5-minute ceiling) for the latter.

The cluster control plane is modelled as an explicit environment
(`ClusterEnv`): the outcome of client construction, the ConfigMap read, the
YAML/JSON decoder (an oracle, since the decoder is an external library), the
user-defined secret read, and a call-indexed system-secret read (the secret
may appear over time while the code polls).  Every ConfigMap/Secret `Get`
issued to the control plane is recorded in a trace (`List APICall`), so that
claims about which lookups happen (and how often) are statable.  Real-time
durations are discretized into poll attempts: `wait.PollImmediate(1s, 5min)`
makes one immediate check plus one check per second for 300 seconds, i.e.
`maxAttempts = 301` condition evaluations before `ErrWaitTimeout`.
-/

set_option autoImplicit false

namespace ClusterConfig

/-- Go `type StorageType string`. -/
abbrev StorageType := String

/-- Go constant `StorageTypeAzure = "azure"`. -/
def StorageTypeAzure : StorageType := "azure"

/-- Go constant `StorageTypeGCS = "gcs"`. -/
def StorageTypeGCS : StorageType := "gcs"

/-- Go constant `StorageTypeS3 = "s3"`. -/
def StorageTypeS3 : StorageType := "s3"

/-- Go constant `StorageTypeEmptyDir = "emptydir"`. -/
def StorageTypeEmptyDir : StorageType := "emptydir"

/-- Go constant `StorageTypeFileSystem = "filesystem"`. -/
def StorageTypeFileSystem : StorageType := "filesystem"

/-- Go constant `StorageTypeSwift = "swift"`. -/
def StorageTypeSwift : StorageType := "swift"

/-- Go constant `installerConfigNamespace = "kube-system"`. -/
def installerConfigNamespace : String := "kube-system"

/-- Go constant `installerConfigName = "cluster-config-v1"`. -/
def installerConfigName : String := "cluster-config-v1"

/-- Go constant `cloudCredentialsName = "installer-cloud-credentials"`. -/
def cloudCredentialsName : String := "installer-cloud-credentials"

/-- Modelled from the spec: the constant
`imageregistryv1.ImageRegistryOperatorNamespace` lives in
`pkg/apis/imageregistry/v1`, which is not part of the provided source.  The
spec describes it as "a fixed operator namespace" holding both the
user-defined and the system-provisioned credential secrets, distinct from the
installer's `kube-system` namespace; the operator's own namespace is
`openshift-image-registry`. -/
def ImageRegistryOperatorNamespace : String := "openshift-image-registry"

/-- Modelled from the spec: the constant
`imageregistryv1.ImageRegistryPrivateConfigurationUser` (the fixed name of the
user-defined registry credentials secret) lives outside the provided source;
the spec describes it only as a fixed name denoting "user-defined registry
credentials". -/
def ImageRegistryPrivateConfigurationUser : String :=
  "image-registry-private-configuration-user"

/-- Go struct `Azure`. -/
structure Azure where
  AccountName : String := ""
  AccountKey : String := ""
  Container : String := ""
deriving DecidableEq, Repr

/-- Go struct `GCS`. -/
structure GCS where
  Bucket : String := ""
  KeyfileData : String := ""
deriving DecidableEq, Repr

/-- Go struct `S3`. -/
structure S3 where
  AccessKey : String := ""
  SecretKey : String := ""
  Bucket : String := ""
  Region : String := ""
deriving DecidableEq, Repr

/-- Go struct `Storage`; the Go field `Type` is written `Type'` because
`Type` is reserved in Lean. -/
structure Storage where
  Type' : StorageType := ""
  Azure : Azure := {}
  GCS : GCS := {}
  S3 : S3 := {}
deriving DecidableEq, Repr

/-- Go struct `Config`. -/
structure Config where
  Storage : Storage := {}
deriving DecidableEq, Repr

/-- The AWS block of the installer's platform descriptor
(`installer.InstallConfig.Platform.AWS`, a pointer in Go — `Option` here);
only its `Region` field is consulted by this module. -/
structure AWSPlatform where
  Region : String
deriving DecidableEq, Repr

/-- The platform union of the install descriptor; this module only looks at
the AWS block (`nil` pointer becomes `none`). -/
structure Platform where
  AWS : Option AWSPlatform := none
deriving DecidableEq, Repr

/-- The decoded installation descriptor (`installer.InstallConfig`),
restricted to the fields this module reads. -/
structure InstallConfig where
  Platform : Platform := {}
deriving DecidableEq, Repr

/-- Go errors as observed by this module: a not-found API error (with its
message, branch-tested via `errors.IsNotFound`), the poll's
`wait.ErrWaitTimeout`, or any other error rendered as its message string
(covers `fmt.Errorf` results and other API failures). -/
inductive GoErr where
  | notFound (s : String)
  | timeout
  | msg (s : String)
deriving DecidableEq, Repr

/-- Go `errors.IsNotFound`. -/
def GoErr.isNotFound : GoErr → Bool
  | .notFound _ => true
  | _ => false

/-- Rendering of an error as `fmt`'s `%v` verb would print it;
`wait.ErrWaitTimeout` prints "timed out waiting for the condition". -/
def GoErr.render : GoErr → String
  | .notFound s => s
  | .timeout => "timed out waiting for the condition"
  | .msg s => s

/-- A ConfigMap or Secret `Get` issued against the cluster control plane,
identified by namespace and object name. -/
inductive APICall where
  | getConfigMap (ns nm : String)
  | getSecret (ns nm : String)
deriving DecidableEq, Repr

/-- Key lookup in the `Data` map of a ConfigMap or Secret
(Go `sec.Data[key]` with its `ok` flag; byte values modelled as strings). -/
def lookupData (d : List (String × String)) (k : String) : Option String :=
  (d.find? (fun p => p.1 == k)).map (fun p => p.2)

/-- The cluster environment a single `GetAWSConfig` run observes:
`coreClient` is the outcome of `GetCoreClient`; `configMap` the result of
reading `kube-system/cluster-config-v1`; `decode` the YAML/JSON decoder
(external library, hence an oracle mapping the `install-config` text to a
descriptor or a decode error); `userSecret` the result of reading the
user-defined secret; `systemSecret i` the result of the `i`-th read (0-based)
of the `installer-cloud-credentials` secret, so the secret may appear while
the code polls. -/
structure ClusterEnv where
  coreClient : Except GoErr Unit
  configMap : Except GoErr (List (String × String))
  decode : String → Except String InstallConfig
  userSecret : Except GoErr (List (String × String))
  systemSecret : Nat → Except GoErr (List (String × String))

/-- Go `fmt.Sprintf("%s/%s", ns, nm)`. -/
def nsName (ns nm : String) : String := ns ++ "/" ++ nm

/-- Message built by the Go code when a secret exists but lacks a required
key: `fmt.Errorf("secret %q does not contain required key \"<key>\"", nsnm)`. -/
def keyErrorMsg (nsnm key : String) : String :=
  "secret \"" ++ nsnm ++ "\" does not contain required key \"" ++ key ++ "\""

/-- Embedding of Go `GetInstallConfig`: build the client, read the
`cluster-config-v1` ConfigMap in `kube-system` (wrapping any error), and
decode its `install-config` field (a missing field reads as `""` in Go).
Returns the result together with the trace of control-plane calls made. -/
def GetInstallConfig (env : ClusterEnv) :
    Except GoErr InstallConfig × List APICall :=
  match env.coreClient with
  | .error e => (.error e, [])
  | .ok _ =>
    match env.configMap with
    | .error e =>
        (.error (.msg ("unable to read cluster install configuration: " ++ e.render)),
         [.getConfigMap installerConfigNamespace installerConfigName])
    | .ok cm =>
        match env.decode ((lookupData cm "install-config").getD "") with
        | .error e =>
            (.error (.msg ("unable to decode cluster install configuration: " ++ e)),
             [.getConfigMap installerConfigNamespace installerConfigName])
        | .ok ic =>
            (.ok ic, [.getConfigMap installerConfigNamespace installerConfigName])

/-- Outcome of one evaluation of the poll condition closure: the Go closure
returns `(true, nil)` on success, `(false, nil)` on a not-found error
(keep waiting), and `(false, err)` on any other error (abort the poll). -/
inductive CondResult where
  | done
  | retry
  | fail (e : GoErr)
deriving DecidableEq, Repr

/-- The poll interval passed to `wait.PollImmediate`: 1 second. -/
def pollIntervalSeconds : Nat := 1

/-- The poll ceiling passed to `wait.PollImmediate`: 5 minutes. -/
def pollTimeoutSeconds : Nat := 300

/-- Number of condition evaluations `wait.PollImmediate(1s, 5min)` makes
before giving up: one immediate check plus one per interval over the
ceiling. -/
def maxAttempts : Nat := pollTimeoutSeconds / pollIntervalSeconds + 1

/-- The poll condition closure of `GetAWSConfig`: the `i`-th evaluation reads
the system secret (the `i`-th system-secret `Get`). -/
def pollCond (env : ClusterEnv) (i : Nat) : CondResult :=
  match env.systemSecret i with
  | .ok _ => .done
  | .error e => if e.isNotFound then .retry else .fail e

/-- Fuel-indexed unfolding of `wait.PollImmediate`: `i` is the index of the
next condition evaluation; the returned number is the total count of
evaluations performed (each one is a system-secret `Get`). -/
def runPollAux (cond : Nat → CondResult) : Nat → Nat → Except GoErr Unit × Nat
  | 0, i => (.error .timeout, i)
  | fuel+1, i =>
    match cond i with
    | .done => (.ok (), i + 1)
    | .fail e => (.error e, i + 1)
    | .retry => runPollAux cond fuel (i + 1)

/-- Embedding of `wait.PollImmediate(1*time.Second, 5*time.Minute, cond)`. -/
def runPoll (cond : Nat → CondResult) : Except GoErr Unit × Nat :=
  runPollAux cond maxAttempts 0

/-- Region as `GetAWSConfig` computes it: the AWS platform block's `Region`
when the block is present (`installConfig.Platform.AWS != nil`), otherwise the
zero value `""` (the field of the fresh `&Config{}` is never assigned). -/
def regionOf (ic : InstallConfig) : String :=
  match ic.Platform.AWS with
  | some p => p.Region
  | none => ""

/-- Embedding of Go `GetAWSConfig`.  Mirrors the source line by line: client,
install config, `Storage.Type = s3` and region from the AWS platform block;
then the user-defined secret; on not-found, poll for the system secret,
re-fetch it (the source's redundant extra read), and extract
`aws_access_key_id` / `aws_secret_access_key`; on success of the user
lookup, extract `REGISTRY_STORAGE_S3_ACCESSKEY` /
`REGISTRY_STORAGE_S3_SECRETKEY`; any non-not-found user-lookup error is
returned unchanged.  Note the source builds the system-secret error messages
with `installerConfigNamespace` even though the `Get` targets the operator
namespace; the embedding reproduces that verbatim.  Returns the result
together with the trace of control-plane calls made. -/
def GetAWSConfig (env : ClusterEnv) : Except GoErr Config × List APICall :=
  match env.coreClient with
  | .error e => (.error e, [])
  | .ok _ =>
    match GetInstallConfig env with
    | (.error e, tr) => (.error e, tr)
    | (.ok installConfig, tr) =>
      let cfg : Config :=
        { Storage := { Type' := StorageTypeS3,
                       S3 := { Region := regionOf installConfig } } }
      let tr1 := tr ++
        [.getSecret ImageRegistryOperatorNamespace ImageRegistryPrivateConfigurationUser]
      match env.userSecret with
      | .error e =>
        if e.isNotFound then
          match runPoll (pollCond env) with
          | (.error e2, n) =>
              (.error e2,
               tr1 ++ List.replicate n
                 (.getSecret ImageRegistryOperatorNamespace cloudCredentialsName))
          | (.ok _, n) =>
            let tr2 := tr1 ++ List.replicate (n + 1)
              (.getSecret ImageRegistryOperatorNamespace cloudCredentialsName)
            match env.systemSecret n with
            | .error e3 =>
                (.error (.msg ("unable to get secret \"" ++
                   nsName installerConfigNamespace cloudCredentialsName ++
                   "\": " ++ e3.render)), tr2)
            | .ok data =>
              match lookupData data "aws_access_key_id" with
              | none =>
                  (.error (.msg (keyErrorMsg
                     (nsName installerConfigNamespace cloudCredentialsName)
                     "aws_access_key_id")), tr2)
              | some a =>
                match lookupData data "aws_secret_access_key" with
                | none =>
                    (.error (.msg (keyErrorMsg
                       (nsName installerConfigNamespace cloudCredentialsName)
                       "aws_secret_access_key")), tr2)
                | some s =>
                    (.ok { cfg with
                             Storage.S3.AccessKey := a,
                             Storage.S3.SecretKey := s }, tr2)
        else
          (.error e, tr1)
      | .ok sec =>
        match lookupData sec "REGISTRY_STORAGE_S3_ACCESSKEY" with
        | none =>
            (.error (.msg (keyErrorMsg
               (nsName ImageRegistryOperatorNamespace ImageRegistryPrivateConfigurationUser)
               "REGISTRY_STORAGE_S3_ACCESSKEY")), tr1)
        | some a =>
          match lookupData sec "REGISTRY_STORAGE_S3_SECRETKEY" with
          | none =>
              (.error (.msg (keyErrorMsg
                 (nsName ImageRegistryOperatorNamespace ImageRegistryPrivateConfigurationUser)
                 "REGISTRY_STORAGE_S3_SECRETKEY")), tr1)
          | some s =>
              (.ok { cfg with
                       Storage.S3.AccessKey := a,
                       Storage.S3.SecretKey := s }, tr1)

/-- Embedding of Go `GetGCSConfig`: builds a fresh config, tags it `gcs`, and
returns it; it takes no client and issues no control-plane calls, so its
trace is empty by construction. -/
def GetGCSConfig : Except GoErr Config × List APICall :=
  (.ok { Storage := { Type' := StorageTypeGCS } }, [])

/-- When the poll condition always asks for a retry, the poll exhausts its
fuel and reports `ErrWaitTimeout`, having evaluated the condition once per
unit of fuel. -/
theorem runPollAux_timeout (cond : Nat → CondResult) (h : ∀ x, cond x = .retry) :
    ∀ fuel i, runPollAux cond fuel i = (.error .timeout, i + fuel) := by
  intro fuel
  induction fuel with
  | zero => intro i; rfl
  | succ f ih =>
      intro i
      simp only [runPollAux, h i]
      rw [ih (i + 1)]
      congr 1
      omega

/-- When the poll condition asks for a retry at the first `j` evaluations and
succeeds at evaluation `j` (with `j` within the fuel), the poll stops right
there with success, having evaluated the condition `j + 1` times. -/
theorem runPollAux_done (cond : Nat → CondResult) :
    ∀ j fuel i, j < fuel →
      (∀ x, x < j → cond (i + x) = .retry) → cond (i + j) = .done →
      runPollAux cond fuel i = (.ok (), i + j + 1) := by
  intro j
  induction j with
  | zero =>
      intro fuel i hf hr hd
      cases fuel with
      | zero => omega
      | succ f =>
          simp only [runPollAux]
          rw [show i + 0 = i from rfl] at hd
          rw [hd]
  | succ k ih =>
      intro fuel i hf hr hd
      cases fuel with
      | zero => omega
      | succ f =>
          have h0 : cond i = .retry := by
            have := hr 0 (Nat.succ_pos k)
            simpa using this
          simp only [runPollAux, h0]
          have hr' : ∀ x, x < k → cond (i + 1 + x) = .retry := by
            intro x hx
            rw [show i + 1 + x = i + (x + 1) by omega]
            exact hr (x + 1) (by omega)
          have hd' : cond (i + 1 + k) = .done := by
            rw [show i + 1 + k = i + (k + 1) by omega]
            exact hd
          rw [ih f (i + 1) (by omega) hr' hd']
          congr 1
          omega

/-- When the poll condition asks for a retry at the first `j` evaluations and
aborts with error `e` at evaluation `j` (with `j` within the fuel), the poll
stops right there with that error, having evaluated the condition `j + 1`
times. -/
theorem runPollAux_fail (cond : Nat → CondResult) (e : GoErr) :
    ∀ j fuel i, j < fuel →
      (∀ x, x < j → cond (i + x) = .retry) → cond (i + j) = .fail e →
      runPollAux cond fuel i = (.error e, i + j + 1) := by
  intro j
  induction j with
  | zero =>
      intro fuel i hf hr hd
      cases fuel with
      | zero => omega
      | succ f =>
          simp only [runPollAux]
          rw [show i + 0 = i from rfl] at hd
          rw [hd]
  | succ k ih =>
      intro fuel i hf hr hd
      cases fuel with
      | zero => omega
      | succ f =>
          have h0 : cond i = .retry := by
            have := hr 0 (Nat.succ_pos k)
            simpa using this
          simp only [runPollAux, h0]
          have hr' : ∀ x, x < k → cond (i + 1 + x) = .retry := by
            intro x hx
            rw [show i + 1 + x = i + (x + 1) by omega]
            exact hr (x + 1) (by omega)
          have hd' : cond (i + 1 + k) = .fail e := by
            rw [show i + 1 + k = i + (k + 1) by omega]
            exact hd
          rw [ih f (i + 1) (by omega) hr' hd']
          congr 1
          omega

/-- Every successful run of `GetAWSConfig` read the install configuration,
decoded it, and drew both credential keys from a single secret it read: the
user-defined one, or some read of the system `installer-cloud-credentials`
secret; the returned config is exactly the s3-tagged config with those two
keys and the descriptor's region. -/
theorem getAWSConfig_ok_shape (env : ClusterEnv) (cfg : Config) (tr : List APICall)
    (h : GetAWSConfig env = (.ok cfg, tr)) :
    ∃ cm ic d a s,
      env.coreClient = .ok () ∧
      env.configMap = .ok cm ∧
      env.decode ((lookupData cm "install-config").getD "") = .ok ic ∧
      ((env.userSecret = .ok d ∧
          lookupData d "REGISTRY_STORAGE_S3_ACCESSKEY" = some a ∧
          lookupData d "REGISTRY_STORAGE_S3_SECRETKEY" = some s) ∨
       ((∃ n, env.systemSecret n = .ok d) ∧
          lookupData d "aws_access_key_id" = some a ∧
          lookupData d "aws_secret_access_key" = some s)) ∧
      cfg = { Storage := { Type' := StorageTypeS3,
                           S3 := { AccessKey := a, SecretKey := s, Bucket := "",
                                   Region := regionOf ic } } } := by
  cases hc : env.coreClient with
  | error e => simp [GetAWSConfig, hc] at h
  | ok u =>
  cases u
  cases hcm : env.configMap with
  | error e => simp [GetAWSConfig, GetInstallConfig, hc, hcm] at h
  | ok cm =>
  cases hdec : env.decode ((lookupData cm "install-config").getD "") with
  | error e => simp [GetAWSConfig, GetInstallConfig, hc, hcm, hdec] at h
  | ok ic =>
  cases huser : env.userSecret with
  | ok d =>
    cases hak : lookupData d "REGISTRY_STORAGE_S3_ACCESSKEY" with
    | none => simp [GetAWSConfig, GetInstallConfig, hc, hcm, hdec, huser, hak] at h
    | some a =>
    cases hsk : lookupData d "REGISTRY_STORAGE_S3_SECRETKEY" with
    | none => simp [GetAWSConfig, GetInstallConfig, hc, hcm, hdec, huser, hak, hsk] at h
    | some s =>
      simp only [GetAWSConfig, GetInstallConfig, hc, hcm, hdec, huser, hak, hsk,
        Prod.mk.injEq, Except.ok.injEq] at h
      exact ⟨cm, ic, d, a, s, rfl, rfl, hdec, Or.inl ⟨rfl, hak, hsk⟩, h.1.symm⟩
  | error e =>
    cases hnf : e.isNotFound with
    | false => simp [GetAWSConfig, GetInstallConfig, hc, hcm, hdec, huser, hnf] at h
    | true =>
      cases hpoll : runPoll (pollCond env) with
      | mk pr n =>
      cases pr with
      | error e2 =>
          simp [GetAWSConfig, GetInstallConfig, hc, hcm, hdec, huser, hnf, hpoll] at h
      | ok u2 =>
      cases u2
      cases hss : env.systemSecret n with
      | error e3 =>
          simp [GetAWSConfig, GetInstallConfig, hc, hcm, hdec, huser, hnf, hpoll, hss] at h
      | ok data =>
      cases hak : lookupData data "aws_access_key_id" with
      | none =>
          simp [GetAWSConfig, GetInstallConfig, hc, hcm, hdec, huser, hnf, hpoll, hss, hak] at h
      | some a =>
      cases hsk : lookupData data "aws_secret_access_key" with
      | none =>
          simp [GetAWSConfig, GetInstallConfig, hc, hcm, hdec, huser, hnf, hpoll, hss, hak, hsk] at h
      | some s =>
        simp only [GetAWSConfig, GetInstallConfig, hc, hcm, hdec, huser, hnf, hpoll, hss, hak, hsk,
          if_true, Prod.mk.injEq, Except.ok.injEq] at h
        exact ⟨cm, ic, data, a, s, rfl, rfl, hdec, Or.inr ⟨⟨n, hss⟩, hak, hsk⟩, h.1.symm⟩

/-- Claim C1: with platform AWS and region `R` in the decoded install
descriptor, and a user-defined secret containing both
`REGISTRY_STORAGE_S3_ACCESSKEY` and `REGISTRY_STORAGE_S3_SECRETKEY`,
`GetAWSConfig` succeeds with `Storage.Type = s3`, the two credential fields
copied from the secret, and `Storage.S3.Region = R`. -/
theorem getAWSConfig_user_secret_success
    (env : ClusterEnv) (cm d : List (String × String)) (ic : InstallConfig)
    (R a s : String)
    (hcc : env.coreClient = .ok ())
    (hcm : env.configMap = .ok cm)
    (hdec : env.decode ((lookupData cm "install-config").getD "") = .ok ic)
    (hic : ic.Platform.AWS = some { Region := R })
    (huser : env.userSecret = .ok d)
    (hak : lookupData d "REGISTRY_STORAGE_S3_ACCESSKEY" = some a)
    (hsk : lookupData d "REGISTRY_STORAGE_S3_SECRETKEY" = some s) :
    GetAWSConfig env =
      (.ok { Storage := { Type' := StorageTypeS3,
                          S3 := { AccessKey := a, SecretKey := s, Bucket := "",
                                  Region := R } } },
       [.getConfigMap installerConfigNamespace installerConfigName,
        .getSecret ImageRegistryOperatorNamespace
          ImageRegistryPrivateConfigurationUser]) := by
  simp [GetAWSConfig, GetInstallConfig, regionOf, hcc, hcm, hdec, hic, huser, hak, hsk]

/-- Concrete cluster for the C1 witness: install config decodes to AWS with
region `us-east-1`; the user-defined secret carries both keys. -/
def envUserOk : ClusterEnv :=
  { coreClient := .ok ()
    configMap := .ok [("install-config", "platform: aws")]
    decode := fun _ => .ok { Platform := { AWS := some { Region := "us-east-1" } } }
    userSecret := .ok [("REGISTRY_STORAGE_S3_ACCESSKEY", "AKIAUSER"),
                       ("REGISTRY_STORAGE_S3_SECRETKEY", "sk-user")]
    systemSecret := fun _ =>
      .error (.notFound "secrets \"installer-cloud-credentials\" not found") }

/-- Witness for C1 at a concrete cluster. -/
theorem getAWSConfig_user_secret_success_witness :
    GetAWSConfig envUserOk =
      (.ok { Storage := { Type' := StorageTypeS3,
                          S3 := { AccessKey := "AKIAUSER", SecretKey := "sk-user",
                                  Bucket := "", Region := "us-east-1" } } },
       [.getConfigMap installerConfigNamespace installerConfigName,
        .getSecret ImageRegistryOperatorNamespace
          ImageRegistryPrivateConfigurationUser]) :=
  getAWSConfig_user_secret_success envUserOk
    [("install-config", "platform: aws")]
    [("REGISTRY_STORAGE_S3_ACCESSKEY", "AKIAUSER"),
     ("REGISTRY_STORAGE_S3_SECRETKEY", "sk-user")]
    { Platform := { AWS := some { Region := "us-east-1" } } }
    "us-east-1" "AKIAUSER" "sk-user" rfl rfl rfl rfl rfl rfl rfl

/-- Claim C6: `GetGCSConfig` always succeeds, returns `Storage.Type = gcs`
with every credential field zero-valued, and issues no ConfigMap or Secret
lookups (its trace is empty). -/
theorem getGCSConfig_tag_only :
    GetGCSConfig =
      (.ok { Storage := { Type' := StorageTypeGCS,
                          Azure := { AccountName := "", AccountKey := "",
                                     Container := "" },
                          GCS := { Bucket := "", KeyfileData := "" },
                          S3 := { AccessKey := "", SecretKey := "", Bucket := "",
                                  Region := "" } } },
       ([] : List APICall)) := rfl

/-- Claim C2: when the user-defined secret lookup returns not-found but the
system `installer-cloud-credentials` secret exists (a stable fact of the
cluster, so every read of it succeeds) and carries both `aws_access_key_id`
and `aws_secret_access_key`, `GetAWSConfig` succeeds with the credentials
taken from that secret after exactly one poll attempt — the immediate first
check.  The trace pins this down: one ConfigMap read, the user-secret read,
the single poll read of the system secret, and the source's redundant
re-fetch of it; no further polling. -/
theorem getAWSConfig_system_secret_immediate
    (env : ClusterEnv) (cm d : List (String × String)) (ic : InstallConfig)
    (m a s : String)
    (hcc : env.coreClient = .ok ())
    (hcm : env.configMap = .ok cm)
    (hdec : env.decode ((lookupData cm "install-config").getD "") = .ok ic)
    (huser : env.userSecret = .error (.notFound m))
    (hsys : ∀ i, env.systemSecret i = .ok d)
    (hak : lookupData d "aws_access_key_id" = some a)
    (hsk : lookupData d "aws_secret_access_key" = some s) :
    GetAWSConfig env =
      (.ok { Storage := { Type' := StorageTypeS3,
                          S3 := { AccessKey := a, SecretKey := s, Bucket := "",
                                  Region := regionOf ic } } },
       [.getConfigMap installerConfigNamespace installerConfigName,
        .getSecret ImageRegistryOperatorNamespace
          ImageRegistryPrivateConfigurationUser,
        .getSecret ImageRegistryOperatorNamespace cloudCredentialsName,
        .getSecret ImageRegistryOperatorNamespace cloudCredentialsName]) := by
  have h0 : pollCond env (0 + 0) = .done := by simp [pollCond, hsys 0]
  have hpoll : runPoll (pollCond env) = (.ok (), 1) := by
    have := runPollAux_done (pollCond env) 0 maxAttempts 0 (by decide)
      (fun x hx => absurd hx (Nat.not_lt_zero x)) h0
    simpa [runPoll] using this
  simp [GetAWSConfig, GetInstallConfig, hcc, hcm, hdec, huser, hpoll, hsys 1,
    hak, hsk, GoErr.isNotFound, List.replicate_succ, List.replicate_one]

/-- Concrete cluster for the C2 witness: no user secret; the system secret is
always there with both keys. -/
def envSysOk : ClusterEnv :=
  { coreClient := .ok ()
    configMap := .ok [("install-config", "platform: aws")]
    decode := fun _ => .ok { Platform := { AWS := some { Region := "eu-west-1" } } }
    userSecret := .error
      (.notFound "secrets \"image-registry-private-configuration-user\" not found")
    systemSecret := fun _ =>
      .ok [("aws_access_key_id", "AKIASYS"), ("aws_secret_access_key", "sk-sys")] }

/-- Witness for C2 at a concrete cluster. -/
theorem getAWSConfig_system_secret_immediate_witness :
    GetAWSConfig envSysOk =
      (.ok { Storage := { Type' := StorageTypeS3,
                          S3 := { AccessKey := "AKIASYS", SecretKey := "sk-sys",
                                  Bucket := "",
                                  Region := regionOf { Platform :=
                                    { AWS := some { Region := "eu-west-1" } } } } } },
       [.getConfigMap installerConfigNamespace installerConfigName,
        .getSecret ImageRegistryOperatorNamespace
          ImageRegistryPrivateConfigurationUser,
        .getSecret ImageRegistryOperatorNamespace cloudCredentialsName,
        .getSecret ImageRegistryOperatorNamespace cloudCredentialsName]) :=
  getAWSConfig_system_secret_immediate envSysOk
    [("install-config", "platform: aws")]
    [("aws_access_key_id", "AKIASYS"), ("aws_secret_access_key", "sk-sys")]
    { Platform := { AWS := some { Region := "eu-west-1" } } }
    "secrets \"image-registry-private-configuration-user\" not found"
    "AKIASYS" "sk-sys" rfl rfl rfl rfl (fun _ => rfl) rfl rfl

/-- Claim C4: the fallback poll checks immediately and then retries at the
fixed 1-second interval up to the 5-minute ceiling — `maxAttempts = 301`
condition evaluations in all (`pollTimeoutSeconds / pollIntervalSeconds`
retries after the immediate check).  First conjunct: if the system secret is
absent for the first `j` checks and present from check `j` on (0-based,
`j < maxAttempts`) with both keys, resolution succeeds — the poll does not
give up early.  Second conjunct: if the secret is absent at every check, the
poll runs its full ceiling — the trace records all `maxAttempts`
system-secret reads — and `GetAWSConfig` fails with `wait.ErrWaitTimeout`,
neither instantly nor indefinitely. -/
theorem getAWSConfig_poll_full_ceiling
    (e1 e2 : ClusterEnv) (cm1 cm2 d : List (String × String))
    (ic1 ic2 : InstallConfig) (mu1 mu2 m1 m2 a s : String) (j : Nat)
    (h1cc : e1.coreClient = .ok ())
    (h1cm : e1.configMap = .ok cm1)
    (h1dec : e1.decode ((lookupData cm1 "install-config").getD "") = .ok ic1)
    (h1user : e1.userSecret = .error (.notFound mu1))
    (hj : j < maxAttempts)
    (h1absent : ∀ x, x < j → e1.systemSecret x = .error (.notFound m1))
    (h1present : ∀ x, j ≤ x → e1.systemSecret x = .ok d)
    (hak : lookupData d "aws_access_key_id" = some a)
    (hsk : lookupData d "aws_secret_access_key" = some s)
    (h2cc : e2.coreClient = .ok ())
    (h2cm : e2.configMap = .ok cm2)
    (h2dec : e2.decode ((lookupData cm2 "install-config").getD "") = .ok ic2)
    (h2user : e2.userSecret = .error (.notFound mu2))
    (h2absent : ∀ x, e2.systemSecret x = .error (.notFound m2)) :
    (GetAWSConfig e1).1 =
      .ok { Storage := { Type' := StorageTypeS3,
                         S3 := { AccessKey := a, SecretKey := s, Bucket := "",
                                 Region := regionOf ic1 } } } ∧
    GetAWSConfig e2 =
      (.error .timeout,
       [.getConfigMap installerConfigNamespace installerConfigName,
        .getSecret ImageRegistryOperatorNamespace
          ImageRegistryPrivateConfigurationUser] ++
       List.replicate maxAttempts
         (.getSecret ImageRegistryOperatorNamespace cloudCredentialsName)) := by
  constructor
  · have hpoll : runPoll (pollCond e1) = (.ok (), j + 1) := by
      have hr : ∀ x, x < j → pollCond e1 (0 + x) = .retry := by
        intro x hx
        simp [pollCond, h1absent x hx, GoErr.isNotFound]
      have hd : pollCond e1 (0 + j) = .done := by
        simp [pollCond, h1present j (le_refl j)]
      have := runPollAux_done (pollCond e1) j maxAttempts 0 hj hr hd
      simpa [runPoll] using this
    have hrefetch : e1.systemSecret (j + 1) = .ok d := h1present (j + 1) (by omega)
    simp [GetAWSConfig, GetInstallConfig, h1cc, h1cm, h1dec, h1user, hpoll,
      hrefetch, hak, hsk, GoErr.isNotFound]
  · have hpoll : runPoll (pollCond e2) = (.error .timeout, maxAttempts) := by
      have hr : ∀ x, pollCond e2 x = .retry := by
        intro x
        simp [pollCond, h2absent x, GoErr.isNotFound]
      have := runPollAux_timeout (pollCond e2) hr maxAttempts 0
      simpa [runPoll] using this
    simp [GetAWSConfig, GetInstallConfig, h2cc, h2cm, h2dec, h2user, hpoll,
      GoErr.isNotFound]

/-- Concrete cluster for the C4 witness, success half: the system secret is
absent at the first two poll checks and present with both keys from the third
check on. -/
def envPollLate : ClusterEnv :=
  { coreClient := .ok ()
    configMap := .ok [("install-config", "platform: aws")]
    decode := fun _ => .ok { Platform := { AWS := some { Region := "us-west-2" } } }
    userSecret := .error
      (.notFound "secrets \"image-registry-private-configuration-user\" not found")
    systemSecret := fun i =>
      if i < 2 then .error (.notFound "secrets \"installer-cloud-credentials\" not found")
      else .ok [("aws_access_key_id", "AKIALATE"), ("aws_secret_access_key", "sk-late")] }

/-- Concrete cluster for the C4 witness, timeout half: the system secret
never appears. -/
def envPollNever : ClusterEnv :=
  { coreClient := .ok ()
    configMap := .ok [("install-config", "platform: aws")]
    decode := fun _ => .ok { Platform := { AWS := some { Region := "us-west-2" } } }
    userSecret := .error
      (.notFound "secrets \"image-registry-private-configuration-user\" not found")
    systemSecret := fun _ =>
      .error (.notFound "secrets \"installer-cloud-credentials\" not found") }

/-- Witness for C4 at concrete clusters (secret appears at the third check;
secret never appears). -/
theorem getAWSConfig_poll_full_ceiling_witness :
    (GetAWSConfig envPollLate).1 =
      .ok { Storage := { Type' := StorageTypeS3,
                         S3 := { AccessKey := "AKIALATE", SecretKey := "sk-late",
                                 Bucket := "",
                                 Region := regionOf { Platform :=
                                   { AWS := some { Region := "us-west-2" } } } } } } ∧
    GetAWSConfig envPollNever =
      (.error .timeout,
       [.getConfigMap installerConfigNamespace installerConfigName,
        .getSecret ImageRegistryOperatorNamespace
          ImageRegistryPrivateConfigurationUser] ++
       List.replicate maxAttempts
         (.getSecret ImageRegistryOperatorNamespace cloudCredentialsName)) :=
  getAWSConfig_poll_full_ceiling envPollLate envPollNever
    [("install-config", "platform: aws")] [("install-config", "platform: aws")]
    [("aws_access_key_id", "AKIALATE"), ("aws_secret_access_key", "sk-late")]
    { Platform := { AWS := some { Region := "us-west-2" } } }
    { Platform := { AWS := some { Region := "us-west-2" } } }
    "secrets \"image-registry-private-configuration-user\" not found"
    "secrets \"image-registry-private-configuration-user\" not found"
    "secrets \"installer-cloud-credentials\" not found"
    "secrets \"installer-cloud-credentials\" not found"
    "AKIALATE" "sk-late" 2
    rfl rfl rfl rfl (by decide)
    (fun x hx => by simp [envPollLate, hx])
    (fun x hx => by simp [envPollLate, Nat.not_lt.mpr hx])
    rfl rfl rfl rfl rfl rfl (fun _ => rfl)

/-- Claim C5: any secret-lookup error other than not-found is fatal and
propagated unchanged, immediately.  First conjunct: a non-not-found error on
the user-defined secret is returned as-is and the fallback is never attempted
— the trace shows no system-secret read.  Second conjunct: a non-not-found
error at poll check `j` (after `j` not-found checks) aborts the poll at once
with that error — the trace shows exactly `j + 1` system-secret reads, with
no retry after the failing one. -/
theorem getAWSConfig_non_notfound_fatal
    (e1 e2 : ClusterEnv) (cm1 cm2 : List (String × String))
    (ic1 ic2 : InstallConfig) (mu m2 : String) (er1 er2 : GoErr) (j : Nat)
    (h1cc : e1.coreClient = .ok ())
    (h1cm : e1.configMap = .ok cm1)
    (h1dec : e1.decode ((lookupData cm1 "install-config").getD "") = .ok ic1)
    (h1user : e1.userSecret = .error er1)
    (h1nf : er1.isNotFound = false)
    (h2cc : e2.coreClient = .ok ())
    (h2cm : e2.configMap = .ok cm2)
    (h2dec : e2.decode ((lookupData cm2 "install-config").getD "") = .ok ic2)
    (h2user : e2.userSecret = .error (.notFound mu))
    (hj : j < maxAttempts)
    (h2absent : ∀ x, x < j → e2.systemSecret x = .error (.notFound m2))
    (h2err : e2.systemSecret j = .error er2)
    (h2nf : er2.isNotFound = false) :
    GetAWSConfig e1 =
      (.error er1,
       [.getConfigMap installerConfigNamespace installerConfigName,
        .getSecret ImageRegistryOperatorNamespace
          ImageRegistryPrivateConfigurationUser]) ∧
    GetAWSConfig e2 =
      (.error er2,
       [.getConfigMap installerConfigNamespace installerConfigName,
        .getSecret ImageRegistryOperatorNamespace
          ImageRegistryPrivateConfigurationUser] ++
       List.replicate (j + 1)
         (.getSecret ImageRegistryOperatorNamespace cloudCredentialsName)) := by
  constructor
  · simp [GetAWSConfig, GetInstallConfig, h1cc, h1cm, h1dec, h1user, h1nf]
  · have hpoll : runPoll (pollCond e2) = (.error er2, j + 1) := by
      have hr : ∀ x, x < j → pollCond e2 (0 + x) = .retry := by
        intro x hx
        simp [pollCond, h2absent x hx, GoErr.isNotFound]
      have hf : pollCond e2 (0 + j) = .fail er2 := by
        simp [pollCond, h2err, h2nf]
      have := runPollAux_fail (pollCond e2) er2 j maxAttempts 0 hj hr hf
      simpa [runPoll] using this
    simp [GetAWSConfig, GetInstallConfig, h2cc, h2cm, h2dec, h2user, hpoll,
      GoErr.isNotFound]

/-- Concrete cluster for the C5 witness, user half: the user-secret read
fails with a non-not-found error. -/
def envUserErr : ClusterEnv :=
  { coreClient := .ok ()
    configMap := .ok [("install-config", "platform: aws")]
    decode := fun _ => .ok { Platform := { AWS := some { Region := "us-east-2" } } }
    userSecret := .error (.msg "connection refused")
    systemSecret := fun _ =>
      .ok [("aws_access_key_id", "AKIA"), ("aws_secret_access_key", "sk")] }

/-- Concrete cluster for the C5 witness, poll half: the first poll check is
not-found, the second fails with a non-not-found error. -/
def envPollErr : ClusterEnv :=
  { coreClient := .ok ()
    configMap := .ok [("install-config", "platform: aws")]
    decode := fun _ => .ok { Platform := { AWS := some { Region := "us-east-2" } } }
    userSecret := .error
      (.notFound "secrets \"image-registry-private-configuration-user\" not found")
    systemSecret := fun i =>
      if i < 1 then .error (.notFound "secrets \"installer-cloud-credentials\" not found")
      else .error (.msg "secrets is forbidden") }

/-- Witness for C5 at concrete clusters. -/
theorem getAWSConfig_non_notfound_fatal_witness :
    GetAWSConfig envUserErr =
      (.error (.msg "connection refused"),
       [.getConfigMap installerConfigNamespace installerConfigName,
        .getSecret ImageRegistryOperatorNamespace
          ImageRegistryPrivateConfigurationUser]) ∧
    GetAWSConfig envPollErr =
      (.error (.msg "secrets is forbidden"),
       [.getConfigMap installerConfigNamespace installerConfigName,
        .getSecret ImageRegistryOperatorNamespace
          ImageRegistryPrivateConfigurationUser] ++
       List.replicate 2
         (.getSecret ImageRegistryOperatorNamespace cloudCredentialsName)) :=
  getAWSConfig_non_notfound_fatal envUserErr envPollErr
    [("install-config", "platform: aws")] [("install-config", "platform: aws")]
    { Platform := { AWS := some { Region := "us-east-2" } } }
    { Platform := { AWS := some { Region := "us-east-2" } } }
    "secrets \"image-registry-private-configuration-user\" not found"
    "secrets \"installer-cloud-credentials\" not found"
    (.msg "connection refused") (.msg "secrets is forbidden") 1
    rfl rfl rfl rfl rfl rfl rfl rfl rfl (by decide)
    (fun x hx => by
      have hx0 : x = 0 := by omega
      subst hx0
      rfl)
    rfl rfl

/-- Claim C7: a failing install-config step aborts `GetAWSConfig` before any
secret lookup.  First conjunct: a decode failure of the `install-config`
payload yields the wrapped fatal decode error with a trace holding only the
ConfigMap read — no secret `Get` ever happens.  Second conjunct: the same
when the ConfigMap read itself fails, with the wrapped read error. -/
theorem getAWSConfig_decode_failure_before_secrets
    (e1 e2 : ClusterEnv) (cm : List (String × String)) (m : String) (er : GoErr)
    (h1cc : e1.coreClient = .ok ())
    (h1cm : e1.configMap = .ok cm)
    (h1dec : e1.decode ((lookupData cm "install-config").getD "") = .error m)
    (h2cc : e2.coreClient = .ok ())
    (h2cm : e2.configMap = .error er) :
    GetAWSConfig e1 =
      (.error (.msg ("unable to decode cluster install configuration: " ++ m)),
       [.getConfigMap installerConfigNamespace installerConfigName]) ∧
    GetAWSConfig e2 =
      (.error (.msg ("unable to read cluster install configuration: " ++ er.render)),
       [.getConfigMap installerConfigNamespace installerConfigName]) := by
  constructor
  · simp [GetAWSConfig, GetInstallConfig, h1cc, h1cm, h1dec]
  · simp [GetAWSConfig, GetInstallConfig, h2cc, h2cm]

/-- Concrete cluster for the C7 witness, decode half: the payload does not
decode. -/
def envBadDecode : ClusterEnv :=
  { coreClient := .ok ()
    configMap := .ok [("install-config", "not: - yaml")]
    decode := fun _ => .error "error converting YAML to JSON"
    userSecret := .ok [("REGISTRY_STORAGE_S3_ACCESSKEY", "AKIA"),
                       ("REGISTRY_STORAGE_S3_SECRETKEY", "sk")]
    systemSecret := fun _ =>
      .ok [("aws_access_key_id", "AKIA"), ("aws_secret_access_key", "sk")] }

/-- Concrete cluster for the C7 witness, ConfigMap half: the ConfigMap read
fails. -/
def envNoConfigMap : ClusterEnv :=
  { coreClient := .ok ()
    configMap := .error (.notFound "configmaps \"cluster-config-v1\" not found")
    decode := fun _ => .ok { Platform := { AWS := some { Region := "us-east-1" } } }
    userSecret := .ok [("REGISTRY_STORAGE_S3_ACCESSKEY", "AKIA"),
                       ("REGISTRY_STORAGE_S3_SECRETKEY", "sk")]
    systemSecret := fun _ =>
      .ok [("aws_access_key_id", "AKIA"), ("aws_secret_access_key", "sk")] }

/-- Witness for C7 at concrete clusters. -/
theorem getAWSConfig_decode_failure_before_secrets_witness :
    GetAWSConfig envBadDecode =
      (.error (.msg ("unable to decode cluster install configuration: " ++
         "error converting YAML to JSON")),
       [.getConfigMap installerConfigNamespace installerConfigName]) ∧
    GetAWSConfig envNoConfigMap =
      (.error (.msg ("unable to read cluster install configuration: " ++
         GoErr.render (.notFound "configmaps \"cluster-config-v1\" not found"))),
       [.getConfigMap installerConfigNamespace installerConfigName]) :=
  getAWSConfig_decode_failure_before_secrets envBadDecode envNoConfigMap
    [("install-config", "not: - yaml")] "error converting YAML to JSON"
    (.notFound "configmaps \"cluster-config-v1\" not found")
    rfl rfl rfl rfl rfl

/-- Claim C8: `Storage.S3.Region` comes from the install descriptor's AWS
platform block.  First conjunct: whenever the descriptor decodes with an AWS
block carrying region `R`, any successful `GetAWSConfig` result has
`Storage.S3.Region = R`.  Second conjunct: with the AWS block absent the
region stays the zero value `""` and that is no error — resolution continues
to the credential lookup and succeeds. -/
theorem getAWSConfig_region_from_descriptor
    (e1 e2 : ClusterEnv) (cm1 cm2 d2 : List (String × String))
    (ic1 ic2 : InstallConfig) (R a2 s2 : String)
    (h1cm : e1.configMap = .ok cm1)
    (h1dec : e1.decode ((lookupData cm1 "install-config").getD "") = .ok ic1)
    (h1ic : ic1.Platform.AWS = some { Region := R })
    (h2cc : e2.coreClient = .ok ())
    (h2cm : e2.configMap = .ok cm2)
    (h2dec : e2.decode ((lookupData cm2 "install-config").getD "") = .ok ic2)
    (h2ic : ic2.Platform.AWS = none)
    (h2user : e2.userSecret = .ok d2)
    (h2ak : lookupData d2 "REGISTRY_STORAGE_S3_ACCESSKEY" = some a2)
    (h2sk : lookupData d2 "REGISTRY_STORAGE_S3_SECRETKEY" = some s2) :
    (∀ cfg tr, GetAWSConfig e1 = (.ok cfg, tr) → cfg.Storage.S3.Region = R) ∧
    (GetAWSConfig e2).1 =
      .ok { Storage := { Type' := StorageTypeS3,
                         S3 := { AccessKey := a2, SecretKey := s2, Bucket := "",
                                 Region := "" } } } := by
  constructor
  · intro cfg tr h
    obtain ⟨cm', ic', d', a', s', _, hcm', hdec', _, hcfg⟩ :=
      getAWSConfig_ok_shape e1 cfg tr h
    have hcmeq : cm' = cm1 := by
      rw [h1cm] at hcm'
      exact (Except.ok.injEq _ _ ▸ hcm' : cm1 = cm').symm
    subst hcmeq
    rw [h1dec] at hdec'
    have hiceq : ic1 = ic' := by
      simpa using hdec'
    subst hiceq
    rw [hcfg]
    simp [regionOf, h1ic]
  · simp [GetAWSConfig, GetInstallConfig, regionOf, h2cc, h2cm, h2dec, h2ic,
      h2user, h2ak, h2sk]

/-- Concrete cluster for the C8 witness, absent-AWS-block half. -/
def envNoAWSBlock : ClusterEnv :=
  { coreClient := .ok ()
    configMap := .ok [("install-config", "platform: none")]
    decode := fun _ => .ok { Platform := { AWS := none } }
    userSecret := .ok [("REGISTRY_STORAGE_S3_ACCESSKEY", "AKIA2"),
                       ("REGISTRY_STORAGE_S3_SECRETKEY", "sk2")]
    systemSecret := fun _ =>
      .error (.notFound "secrets \"installer-cloud-credentials\" not found") }

/-- Witness for C8: the concrete success of `envUserOk` has region
`us-east-1`, and `envNoAWSBlock` resolves with the empty region. -/
theorem getAWSConfig_region_from_descriptor_witness :
    ({ Storage := { Type' := StorageTypeS3,
                    S3 := { AccessKey := "AKIAUSER", SecretKey := "sk-user",
                            Bucket := "", Region := "us-east-1" } } } : Config).Storage.S3.Region
      = "us-east-1" ∧
    (GetAWSConfig envNoAWSBlock).1 =
      .ok { Storage := { Type' := StorageTypeS3,
                         S3 := { AccessKey := "AKIA2", SecretKey := "sk2",
                                 Bucket := "", Region := "" } } } := by
  have h := getAWSConfig_region_from_descriptor envUserOk envNoAWSBlock
    [("install-config", "platform: aws")] [("install-config", "platform: none")]
    [("REGISTRY_STORAGE_S3_ACCESSKEY", "AKIA2"),
     ("REGISTRY_STORAGE_S3_SECRETKEY", "sk2")]
    { Platform := { AWS := some { Region := "us-east-1" } } }
    { Platform := { AWS := none } }
    "us-east-1" "AKIA2" "sk2"
    rfl rfl rfl rfl rfl rfl rfl rfl rfl rfl
  exact ⟨h.1 _ _ rfl, h.2⟩

/-- Claim C9: partial credentials are never returned.  Every successful
`GetAWSConfig` result drew BOTH credential fields from one secret it read
(the user-defined one or some read of the system secret), each via a
present-key lookup — so a run in which only one of the two keys was found
cannot return successfully. -/
theorem getAWSConfig_full_credentials
    (env : ClusterEnv) (cfg : Config) (tr : List APICall)
    (h : GetAWSConfig env = (.ok cfg, tr)) :
    ∃ d, (env.userSecret = .ok d ∧
            lookupData d "REGISTRY_STORAGE_S3_ACCESSKEY" =
              some cfg.Storage.S3.AccessKey ∧
            lookupData d "REGISTRY_STORAGE_S3_SECRETKEY" =
              some cfg.Storage.S3.SecretKey) ∨
         ((∃ n, env.systemSecret n = .ok d) ∧
            lookupData d "aws_access_key_id" = some cfg.Storage.S3.AccessKey ∧
            lookupData d "aws_secret_access_key" = some cfg.Storage.S3.SecretKey) := by
  obtain ⟨cm, ic, d, a, s, -, -, -, hsrc, hcfg⟩ := getAWSConfig_ok_shape env cfg tr h
  subst hcfg
  exact ⟨d, by simpa using hsrc⟩

/-- Witness for C9 at the concrete cluster `envUserOk`. -/
theorem getAWSConfig_full_credentials_witness :
    ∃ d, (envUserOk.userSecret = .ok d ∧
            lookupData d "REGISTRY_STORAGE_S3_ACCESSKEY" = some "AKIAUSER" ∧
            lookupData d "REGISTRY_STORAGE_S3_SECRETKEY" = some "sk-user") ∨
         ((∃ n, envUserOk.systemSecret n = .ok d) ∧
            lookupData d "aws_access_key_id" = some "AKIAUSER" ∧
            lookupData d "aws_secret_access_key" = some "sk-user") :=
  getAWSConfig_full_credentials envUserOk
    { Storage := { Type' := StorageTypeS3,
                   S3 := { AccessKey := "AKIAUSER", SecretKey := "sk-user",
                           Bucket := "", Region := "us-east-1" } } }
    [.getConfigMap installerConfigNamespace installerConfigName,
     .getSecret ImageRegistryOperatorNamespace
       ImageRegistryPrivateConfigurationUser]
    rfl

/-- Claim C10 (implicit): `GetAWSConfig` tests key PRESENCE, not value
non-emptiness.  If a required key exists but maps to the empty value, the run
succeeds and the corresponding credential field is the empty string — in both
the user-secret path (first conjunct) and the system-secret path (second
conjunct). -/
theorem getAWSConfig_empty_value_accepted
    (e1 e2 : ClusterEnv) (cm1 cm2 d1 d2 : List (String × String))
    (ic1 ic2 : InstallConfig) (mu : String)
    (h1cc : e1.coreClient = .ok ())
    (h1cm : e1.configMap = .ok cm1)
    (h1dec : e1.decode ((lookupData cm1 "install-config").getD "") = .ok ic1)
    (h1user : e1.userSecret = .ok d1)
    (h1ak : lookupData d1 "REGISTRY_STORAGE_S3_ACCESSKEY" = some "")
    (h1sk : lookupData d1 "REGISTRY_STORAGE_S3_SECRETKEY" = some "")
    (h2cc : e2.coreClient = .ok ())
    (h2cm : e2.configMap = .ok cm2)
    (h2dec : e2.decode ((lookupData cm2 "install-config").getD "") = .ok ic2)
    (h2user : e2.userSecret = .error (.notFound mu))
    (h2sys : ∀ i, e2.systemSecret i = .ok d2)
    (h2ak : lookupData d2 "aws_access_key_id" = some "")
    (h2sk : lookupData d2 "aws_secret_access_key" = some "") :
    (GetAWSConfig e1).1 =
      .ok { Storage := { Type' := StorageTypeS3,
                         S3 := { AccessKey := "", SecretKey := "", Bucket := "",
                                 Region := regionOf ic1 } } } ∧
    (GetAWSConfig e2).1 =
      .ok { Storage := { Type' := StorageTypeS3,
                         S3 := { AccessKey := "", SecretKey := "", Bucket := "",
                                 Region := regionOf ic2 } } } := by
  constructor
  · simp [GetAWSConfig, GetInstallConfig, h1cc, h1cm, h1dec, h1user, h1ak, h1sk]
  · have h0 : pollCond e2 (0 + 0) = .done := by simp [pollCond, h2sys 0]
    have hpoll : runPoll (pollCond e2) = (.ok (), 1) := by
      have := runPollAux_done (pollCond e2) 0 maxAttempts 0 (by decide)
        (fun x hx => absurd hx (Nat.not_lt_zero x)) h0
      simpa [runPoll] using this
    simp [GetAWSConfig, GetInstallConfig, h2cc, h2cm, h2dec, h2user, hpoll,
      h2sys 1, h2ak, h2sk, GoErr.isNotFound]

/-- Concrete cluster for the C10 witness, user half: both keys present with
empty values. -/
def envUserEmptyVals : ClusterEnv :=
  { coreClient := .ok ()
    configMap := .ok [("install-config", "platform: aws")]
    decode := fun _ => .ok { Platform := { AWS := some { Region := "ap-south-1" } } }
    userSecret := .ok [("REGISTRY_STORAGE_S3_ACCESSKEY", ""),
                       ("REGISTRY_STORAGE_S3_SECRETKEY", "")]
    systemSecret := fun _ =>
      .error (.notFound "secrets \"installer-cloud-credentials\" not found") }

/-- Concrete cluster for the C10 witness, system half: both keys present with
empty values. -/
def envSysEmptyVals : ClusterEnv :=
  { coreClient := .ok ()
    configMap := .ok [("install-config", "platform: aws")]
    decode := fun _ => .ok { Platform := { AWS := some { Region := "ap-south-1" } } }
    userSecret := .error
      (.notFound "secrets \"image-registry-private-configuration-user\" not found")
    systemSecret := fun _ =>
      .ok [("aws_access_key_id", ""), ("aws_secret_access_key", "")] }

/-- Witness for C10 at concrete clusters. -/
theorem getAWSConfig_empty_value_accepted_witness :
    (GetAWSConfig envUserEmptyVals).1 =
      .ok { Storage := { Type' := StorageTypeS3,
                         S3 := { AccessKey := "", SecretKey := "", Bucket := "",
                                 Region := regionOf { Platform :=
                                   { AWS := some { Region := "ap-south-1" } } } } } } ∧
    (GetAWSConfig envSysEmptyVals).1 =
      .ok { Storage := { Type' := StorageTypeS3,
                         S3 := { AccessKey := "", SecretKey := "", Bucket := "",
                                 Region := regionOf { Platform :=
                                   { AWS := some { Region := "ap-south-1" } } } } } } :=
  getAWSConfig_empty_value_accepted envUserEmptyVals envSysEmptyVals
    [("install-config", "platform: aws")] [("install-config", "platform: aws")]
    [("REGISTRY_STORAGE_S3_ACCESSKEY", ""), ("REGISTRY_STORAGE_S3_SECRETKEY", "")]
    [("aws_access_key_id", ""), ("aws_secret_access_key", "")]
    { Platform := { AWS := some { Region := "ap-south-1" } } }
    { Platform := { AWS := some { Region := "ap-south-1" } } }
    "secrets \"image-registry-private-configuration-user\" not found"
    rfl rfl rfl rfl rfl rfl rfl rfl rfl rfl (fun _ => rfl) rfl rfl

/-- Concrete cluster exhibiting the C3 divergence: no user secret; the system
secret exists but lacks `aws_secret_access_key`. -/
def envSysMissingKey : ClusterEnv :=
  { coreClient := .ok ()
    configMap := .ok [("install-config", "platform: aws")]
    decode := fun _ => .ok { Platform := { AWS := some { Region := "eu-central-1" } } }
    userSecret := .error
      (.notFound "secrets \"image-registry-private-configuration-user\" not found")
    systemSecret := fun _ => .ok [("aws_access_key_id", "AKIAONLY")] }

/-- Claim C3 (divergence at the failing input): when the system secret lacks
`aws_secret_access_key`, `GetAWSConfig` does fail naming the missing key, but
the error names the secret as `kube-system/installer-cloud-credentials`
(built from `installerConfigNamespace`), while the trace shows every
system-secret read targeted the operator namespace — a namespace-qualified
identity that was never looked up; the two namespaces differ. -/
theorem getAWSConfig_missing_key_error_misnames_namespace :
    GetAWSConfig envSysMissingKey =
      (.error (.msg (keyErrorMsg
         (nsName installerConfigNamespace cloudCredentialsName)
         "aws_secret_access_key")),
       [.getConfigMap installerConfigNamespace installerConfigName,
        .getSecret ImageRegistryOperatorNamespace
          ImageRegistryPrivateConfigurationUser,
        .getSecret ImageRegistryOperatorNamespace cloudCredentialsName,
        .getSecret ImageRegistryOperatorNamespace cloudCredentialsName]) ∧
    installerConfigNamespace ≠ ImageRegistryOperatorNamespace :=
  ⟨rfl, by decide⟩

end ClusterConfig
